import Mathlib

set_option autoImplicit false

namespace HippaStack

/-!
Shallow embedding of the lockdev-hippa-stack API application
(src/lockdev-hippa-app): the JWT auth gate and security-header envelope of
src/utils/security.py, the API route handlers of src/routes/api.py, and the
application-level request dispatch of src/main.py.
-/

/-- A JSON claim value as found in a decoded JWT payload.  The auth gate only
distinguishes strings from everything else (security.py:103 checks
isinstance of str), so a coarse value universe suffices. -/
inductive JsonValue where
  | str (s : String)
  | num (n : Int)
  | boolean (b : Bool)
  | null
deriving DecidableEq

/-- A decoded JWT payload reduced to the claims the application reads: the
subject claim (an arbitrary JSON value, possibly absent) and the numeric
expiry instant in seconds (absent when the token carries no exp claim). -/
structure Payload where
  sub : Option JsonValue
  exp : Option Int
deriving DecidableEq

/-- A presented bearer token: either a string that does not parse as a JWT at
all, or a JWT carrying a payload and signed (HS256) under sigKey.
Signature verification under key k succeeds exactly when sigKey = k; HMAC
forgery is outside the model. -/
inductive Token where
  | malformed
  | signed (payload : Payload) (sigKey : String)
deriving DecidableEq

/-- The failure modes of jose's jwt.decode, all of which are subclasses of
JWTError and therefore indistinguishable to the except branch at
security.py:105. -/
inductive JWTError where
  | decodeError
  | invalidSignature
  | expiredSignature
deriving DecidableEq

/-- jose jwt.decode(token, key, algorithms=[HS256]) as called at
security.py:99: verify the signature, then validate the exp claim against the
current time with zero leeway (expired iff exp < now); a token without an exp
claim is not expiry-checked.  Every failure raises a JWTError. -/
def jwtDecode (tok : Token) (key : String) (now : Int) : Except JWTError Payload :=
  match tok with
  | .malformed => .error .decodeError
  | .signed p sigKey =>
    if sigKey = key then
      match p.exp with
      | some e => if e < now then .error .expiredSignature else .ok p
      | none => .ok p
    else .error .invalidSignature

/-- The mock user constructed by the auth gate (security.py:110-115), with the
fields the route handlers read.  created_at is the construction instant
(datetime.utcnow()). -/
structure User where
  id : String
  email : String
  created_at : Int
  is_active : Bool
deriving DecidableEq

/-- A fastapi HTTPException as raised by the auth gate: status code, detail
string, and extra response headers. -/
structure HTTPError where
  status_code : Nat
  detail : String
  headers : List (String × String)
deriving DecidableEq

/-- The credentials_exception of security.py:92-96: HTTP 401 with the
re-authentication challenge header. -/
def credentials_exception : HTTPError :=
  { status_code := 401
    detail := "Could not validate credentials"
    headers := [("WWW-Authenticate", "Bearer")] }

/-- get_current_user (security.py:84-121).  credentials is none when the
request carries no (parseable) Authorization header, because the HTTPBearer
dependency is built with auto_error=False (security.py:29); in that case the
gate returns no identity.  Otherwise the token is decoded and verified; any
JWTError raises credentials_exception, as does a missing or non-string sub
claim.  On success a mock user is synthesized from the sub claim alone; the
db session parameter of the source is never used, and the source's final
`if user is None` guard is unreachable (user was just constructed). -/
def get_current_user (credentials : Option Token) (now : Int) (secret_key : String) :
    Except HTTPError (Option User) :=
  match credentials with
  | none => .ok none
  | some tok =>
    match jwtDecode tok secret_key now with
    | .error _ => .error credentials_exception
    | .ok payload =>
      match payload.sub with
      | some (.str user_id) =>
        .ok (some
          { id := user_id
            email := "user" ++ user_id ++ "@example.com"
            created_at := now
            is_active := true })
      | _ => .error credentials_exception

/-- require_auth (security.py:124-132): turns the optional identity into a
mandatory one, raising 401 with the challenge header when it is absent.
No route of src/routes/api.py depends on it. -/
def require_auth (current_user : Option User) : Except HTTPError User :=
  match current_user with
  | none =>
    .error
      { status_code := 401
        detail := "Authentication required"
        headers := [("WWW-Authenticate", "Bearer")] }
  | some u => .ok u

/-- The entries of a response's headers with the given name.  Header names are
written with identical casing at every assignment in the source, so the
case-insensitivity of the framework's header map is unobservable and exact
string comparison is faithful. -/
def filterKey (k : String) : List (String × String) → List (String × String)
  | [] => []
  | p :: rest => if p.1 = k then p :: filterKey k rest else filterKey k rest

/-- Drop every entry with the given name. -/
def eraseKey (k : String) : List (String × String) → List (String × String)
  | [] => []
  | p :: rest => if p.1 = k then eraseKey k rest else p :: eraseKey k rest

/-- The assignment response.headers[k] = v of the framework's mutable header
map: replace the first entry named k (dropping any duplicates after it), or
append the entry when the name is absent. -/
def setHeader : List (String × String) → String → String → List (String × String)
  | [], k, v => [(k, v)]
  | (k', v') :: rest, k, v =>
    if k' = k then (k, v) :: eraseKey k rest
    else (k', v') :: setHeader rest k v

/-- The Strict-Transport-Security value of security.py:37-39. -/
def stsValue : String := "max-age=31536000; includeSubDomains"

/-- The Content-Security-Policy value of security.py:40-50 (the Python
adjacent string literals concatenated; \x27 is the single-quote character). -/
def cspValue : String :=
  "default-src \x27self\x27; script-src \x27self\x27 \x27unsafe-inline\x27; " ++
  "style-src \x27self\x27 \x27unsafe-inline\x27; img-src \x27self\x27 data: https:; " ++
  "connect-src \x27self\x27; font-src \x27self\x27; object-src \x27none\x27; " ++
  "media-src \x27self\x27; frame-src \x27none\x27;"

/-- The Permissions-Policy value of security.py:52-56. -/
def permissionsValue : String :=
  "geolocation=(), microphone=(), camera=(), payment=(), usb=(), " ++
  "screen-wake-lock=(), web-share=(), cross-origin-isolated=()"

/-- The seven header assignments of setup_security_headers
(security.py:34-56), applied to a header list in source order. -/
def applyHeaders (hs : List (String × String)) : List (String × String) :=
  setHeader (setHeader (setHeader (setHeader (setHeader (setHeader (setHeader hs
    "X-Content-Type-Options" "nosniff")
    "X-Frame-Options" "DENY")
    "X-XSS-Protection" "1; mode=block")
    "Strict-Transport-Security" stsValue)
    "Content-Security-Policy" cspValue)
    "Referrer-Policy" "strict-origin-when-cross-origin")
    "Permissions-Policy" permissionsValue

/-- The HelloResponse pydantic model of api.py:22-27. -/
structure HelloResponse where
  message : String
  timestamp : Int
  user_id : Option String
deriving DecidableEq

/-- The UserResponse pydantic model of api.py:30-36. -/
structure UserResponse where
  id : String
  email : String
  created_at : Int
  is_active : Bool
deriving DecidableEq

/-- The placeholder dict returned by get_audit_log (api.py:95-100). -/
structure AuditLogPayload where
  message : String
  note : String
  user_id : String
  timestamp : Int
deriving DecidableEq

/-- The JSON body of a response: one of the route payload shapes, or the
single-field detail object produced for HTTPException and unhandled-error
responses. -/
inductive Body where
  | hello (r : HelloResponse)
  | userInfo (r : UserResponse)
  | audit (r : AuditLogPayload)
  | detail (s : String)
deriving DecidableEq

/-- An outgoing HTTP response: status code, header list, JSON body. -/
structure HttpResponse where
  status : Nat
  headers : List (String × String)
  body : Body
deriving DecidableEq

/-- setup_security_headers (security.py:32-58): attach the seven fixed
security headers to the response and return it unchanged otherwise. -/
def setup_security_headers (response : HttpResponse) : HttpResponse :=
  { response with headers := applyHeaders response.headers }

/-- hello_world (api.py:39-53), optional authentication: the handler tolerates
an absent identity and reports its user id when present. -/
def hello_world (current_user : Option User) (now : Int) : HelloResponse :=
  { message := "Hello from HIPAA-compliant healthcare API!"
    timestamp := now
    user_id := current_user.map User.id }

/-- secure_endpoint (api.py:56-67).  The parameter is annotated User in the
source, but the framework injects whatever get_current_user returned, None
included; the body dereferences current_user.id, so an absent identity raises
an AttributeError (modelled as Except.error). -/
def secure_endpoint (current_user : Option User) (now : Int) : Except Unit HelloResponse :=
  match current_user with
  | none => .error ()
  | some u =>
    .ok
      { message := "This is a secure endpoint - you are authenticated!"
        timestamp := now
        user_id := some u.id }

/-- get_current_user_info (api.py:70-83); like secure_endpoint it dereferences
current_user.id and therefore raises on an absent identity.  The db session
parameter of the source is unused. -/
def get_current_user_info (current_user : Option User) : Except Unit UserResponse :=
  match current_user with
  | none => .error ()
  | some u =>
    .ok
      { id := u.id
        email := u.email
        created_at := u.created_at
        is_active := u.is_active }

/-- get_audit_log (api.py:86-100): logs and then returns the fixed placeholder
dict; the limit query parameter is read only by the log statement.  An absent
identity raises on current_user.id like the other handlers. -/
def get_audit_log (current_user : Option User) (limit : Int) (now : Int) :
    Except Unit AuditLogPayload :=
  match current_user with
  | none => .error ()
  | some u =>
    .ok
      { message := "Audit log functionality - placeholder"
        note := "In production, this would return actual audit trail data"
        user_id := u.id
        timestamp := now }

/-- The routes of the api router (main.py:122 mounts them under /api/v1),
plus a stand-in for any unmatched path, which the framework answers with a
404 HTTPException. -/
inductive Route where
  | hello
  | secure
  | usersMe
  | auditLog
  | notFound
deriving DecidableEq

/-- An inbound request as the modelled routes observe it: the matched route,
the parsed bearer credentials (none when the Authorization header is absent
or not a bearer header), and the audit-log limit query parameter
(default 10). -/
structure Request where
  route : Route
  credentials : Option Token
  limit : Int
deriving DecidableEq

/-- Dependency resolution for a route depending on get_current_user: an
HTTPException raised by the dependency is converted by the framework into a
JSON response carrying the exception's status, detail body and headers
(spec section 6 collaborator contract for the routing/middleware layer);
otherwise the resolved identity is handed to the handler.  A non-HTTPException
error from the handler propagates (Except.error). -/
def authThen (credentials : Option Token) (now : Int) (key : String)
    (handler : Option User → Except Unit HttpResponse) : Except Unit HttpResponse :=
  match get_current_user credentials now key with
  | .error e => .ok { status := e.status_code, headers := e.headers, body := .detail e.detail }
  | .ok mu => handler mu

/-- Route dispatch of the api router: run the auth dependency and the matched
handler, wrapping handler payloads as 200 responses; unmatched paths get the
framework's 404 detail response.  Except.error marks an unhandled exception
escaping the route. -/
def runRoute (req : Request) (now : Int) (key : String) : Except Unit HttpResponse :=
  match req.route with
  | .hello =>
    authThen req.credentials now key fun mu =>
      .ok { status := 200, headers := [], body := .hello (hello_world mu now) }
  | .secure =>
    authThen req.credentials now key fun mu =>
      (secure_endpoint mu now).map fun r => { status := 200, headers := [], body := .hello r }
  | .usersMe =>
    authThen req.credentials now key fun mu =>
      (get_current_user_info mu).map fun r => { status := 200, headers := [], body := .userInfo r }
  | .auditLog =>
    authThen req.credentials now key fun mu =>
      (get_audit_log mu req.limit now).map fun r => { status := 200, headers := [], body := .audit r }
  | .notFound => .ok { status := 404, headers := [], body := .detail "Not Found" }

/-- The response of the catch-all exception handler (main.py:129-141): any
exception reaching the boundary is logged and converted to a generic 500. -/
def unhandled_error_response : HttpResponse :=
  { status := 500, headers := [], body := .detail "Internal server error" }

/-- Full request dispatch: route handling, the catch-all exception handler for
escaped exceptions, and the add_security_headers middleware (main.py:84-87)
over the outcome.  The middleware pipeline itself is the out-of-scope web
framework; per the spec section 6 collaborator contract it runs the Response
Envelope over every response, framework-generated error responses included,
which places setup_security_headers after both branches. -/
def appDispatch (req : Request) (now : Int) (key : String) : HttpResponse :=
  setup_security_headers <|
    match runRoute req now key with
    | .ok r => r
    | .error _ => unhandled_error_response

/-- A response with no headers, for concrete evaluations of the envelope. -/
def emptyResponse : HttpResponse :=
  { status := 200, headers := [], body := .detail "" }

/-- Modelled from the spec: the names of the six fixed security headers the
Response Envelope is said to consist of (spec sections 4.2 and 8: content-type
sniffing disabled, frame embedding denied, strict transport security,
content security policy, referrer policy, permissions policy). -/
def specSixHeaderNames : List String :=
  ["X-Content-Type-Options", "X-Frame-Options", "Strict-Transport-Security",
   "Content-Security-Policy", "Referrer-Policy", "Permissions-Policy"]

/-- A token that is present but invalid in one of the three ways the spec
enumerates: not a parseable JWT, signed under a different key, or carrying an
expiry in the past. -/
def token_invalid (tok : Token) (key : String) (now : Int) : Prop :=
  tok = .malformed
    ∨ (∃ p sk, tok = .signed p sk ∧ sk ≠ key)
    ∨ (∃ p sk e, tok = .signed p sk ∧ p.exp = some e ∧ e < now)

/-- Whether an optional claim value is a JSON string (the isinstance check of
security.py:103). -/
def sub_is_str : Option JsonValue → Bool
  | some (.str _) => true
  | _ => false

/-- Each of the seven fixed security headers occurs in the response exactly
once, with the exact value the source assigns. -/
def hasExactSecurityHeaders (r : HttpResponse) : Prop :=
  filterKey "X-Content-Type-Options" r.headers = [("X-Content-Type-Options", "nosniff")] ∧
  filterKey "X-Frame-Options" r.headers = [("X-Frame-Options", "DENY")] ∧
  filterKey "X-XSS-Protection" r.headers = [("X-XSS-Protection", "1; mode=block")] ∧
  filterKey "Strict-Transport-Security" r.headers = [("Strict-Transport-Security", stsValue)] ∧
  filterKey "Content-Security-Policy" r.headers = [("Content-Security-Policy", cspValue)] ∧
  filterKey "Referrer-Policy" r.headers = [("Referrer-Policy", "strict-origin-when-cross-origin")] ∧
  filterKey "Permissions-Policy" r.headers = [("Permissions-Policy", permissionsValue)]

/-! Header-map lemmas: how filterKey observes setHeader and eraseKey. -/

theorem filterKey_eraseKey_self (k : String) (hs : List (String × String)) :
    filterKey k (eraseKey k hs) = [] := by
  induction hs with
  | nil => rfl
  | cons p rest ih =>
    by_cases hp : p.1 = k
    · simp [eraseKey, hp, ih]
    · simp [eraseKey, filterKey, hp, ih]

theorem filterKey_eraseKey_ne {k k₂ : String} (h : k ≠ k₂) (hs : List (String × String)) :
    filterKey k (eraseKey k₂ hs) = filterKey k hs := by
  induction hs with
  | nil => rfl
  | cons p rest ih =>
    by_cases hp : p.1 = k₂
    · have hpk : p.1 ≠ k := by rw [hp]; exact Ne.symm h
      simp [eraseKey, filterKey, hp, hpk, ih, h, Ne.symm h]
    · by_cases hpk : p.1 = k
      · simp [eraseKey, filterKey, hp, hpk, ih, h, Ne.symm h]
      · simp [eraseKey, filterKey, hp, hpk, ih]

theorem eraseKey_of_filterKey_nil {k : String} {hs : List (String × String)}
    (h : filterKey k hs = []) : eraseKey k hs = hs := by
  induction hs with
  | nil => rfl
  | cons p rest ih =>
    by_cases hp : p.1 = k
    · simp [filterKey, hp] at h
    · simp [filterKey, hp] at h
      simp [eraseKey, hp, ih h]

theorem filterKey_setHeader_self (k v : String) (hs : List (String × String)) :
    filterKey k (setHeader hs k v) = [(k, v)] := by
  induction hs with
  | nil => simp [setHeader, filterKey]
  | cons p rest ih =>
    by_cases hp : p.1 = k
    · simp [setHeader, filterKey, hp, filterKey_eraseKey_self]
    · simp [setHeader, filterKey, hp, ih]

theorem filterKey_setHeader_ne {k k₂ : String} (h : k ≠ k₂) (hs : List (String × String))
    (v₂ : String) : filterKey k (setHeader hs k₂ v₂) = filterKey k hs := by
  induction hs with
  | nil => simp [setHeader, filterKey, Ne.symm h]
  | cons p rest ih =>
    by_cases hp : p.1 = k₂
    · have hpk : p.1 ≠ k := by rw [hp]; exact Ne.symm h
      simp [setHeader, filterKey, hp, hpk, h, Ne.symm h, filterKey_eraseKey_ne h]
    · by_cases hpk : p.1 = k
      · simp [setHeader, filterKey, hp, hpk, ih, h, Ne.symm h]
        exact Prod.ext hpk.symm rfl
      · simp [setHeader, filterKey, hp, hpk, ih, h, Ne.symm h]

theorem setHeader_already {k v : String} {hs : List (String × String)}
    (h : filterKey k hs = [(k, v)]) : setHeader hs k v = hs := by
  induction hs with
  | nil => simp [filterKey] at h
  | cons p rest ih =>
    by_cases hp : p.1 = k
    · simp [filterKey, hp] at h
      obtain ⟨hpv, hrest⟩ := h
      simp [setHeader, hp, hpv, eraseKey_of_filterKey_nil hrest]
    · simp [filterKey, hp] at h
      simp [setHeader, hp, ih h]

/-! Each of the seven fixed headers occurs exactly once, with its assigned
value, after the envelope runs — whatever headers the response had before. -/

theorem filterKey_applyHeaders_xcto (hs : List (String × String)) :
    filterKey "X-Content-Type-Options" (applyHeaders hs) =
      [("X-Content-Type-Options", "nosniff")] := by
  simp (disch := decide) [applyHeaders, filterKey_setHeader_ne, filterKey_setHeader_self]

theorem filterKey_applyHeaders_xfo (hs : List (String × String)) :
    filterKey "X-Frame-Options" (applyHeaders hs) = [("X-Frame-Options", "DENY")] := by
  simp (disch := decide) [applyHeaders, filterKey_setHeader_ne, filterKey_setHeader_self]

theorem filterKey_applyHeaders_xxss (hs : List (String × String)) :
    filterKey "X-XSS-Protection" (applyHeaders hs) =
      [("X-XSS-Protection", "1; mode=block")] := by
  simp (disch := decide) [applyHeaders, filterKey_setHeader_ne, filterKey_setHeader_self]

theorem filterKey_applyHeaders_sts (hs : List (String × String)) :
    filterKey "Strict-Transport-Security" (applyHeaders hs) =
      [("Strict-Transport-Security", stsValue)] := by
  simp (disch := decide) [applyHeaders, filterKey_setHeader_ne, filterKey_setHeader_self]

theorem filterKey_applyHeaders_csp (hs : List (String × String)) :
    filterKey "Content-Security-Policy" (applyHeaders hs) =
      [("Content-Security-Policy", cspValue)] := by
  simp (disch := decide) [applyHeaders, filterKey_setHeader_ne, filterKey_setHeader_self]

theorem filterKey_applyHeaders_rp (hs : List (String × String)) :
    filterKey "Referrer-Policy" (applyHeaders hs) =
      [("Referrer-Policy", "strict-origin-when-cross-origin")] := by
  simp (disch := decide) [applyHeaders, filterKey_setHeader_ne, filterKey_setHeader_self]

theorem filterKey_applyHeaders_pp (hs : List (String × String)) :
    filterKey "Permissions-Policy" (applyHeaders hs) =
      [("Permissions-Policy", permissionsValue)] := by
  simp (disch := decide) [applyHeaders, filterKey_setHeader_ne, filterKey_setHeader_self]

theorem applyHeaders_idem (hs : List (String × String)) :
    applyHeaders (applyHeaders hs) = applyHeaders hs := by
  show setHeader (setHeader (setHeader (setHeader (setHeader (setHeader (setHeader
      (applyHeaders hs)
      "X-Content-Type-Options" "nosniff")
      "X-Frame-Options" "DENY")
      "X-XSS-Protection" "1; mode=block")
      "Strict-Transport-Security" stsValue)
      "Content-Security-Policy" cspValue)
      "Referrer-Policy" "strict-origin-when-cross-origin")
      "Permissions-Policy" permissionsValue
    = applyHeaders hs
  rw [setHeader_already (filterKey_applyHeaders_xcto hs),
      setHeader_already (filterKey_applyHeaders_xfo hs),
      setHeader_already (filterKey_applyHeaders_xxss hs),
      setHeader_already (filterKey_applyHeaders_sts hs),
      setHeader_already (filterKey_applyHeaders_csp hs),
      setHeader_already (filterKey_applyHeaders_rp hs),
      setHeader_already (filterKey_applyHeaders_pp hs)]

theorem hasExact_setup (r : HttpResponse) :
    hasExactSecurityHeaders (setup_security_headers r) :=
  ⟨filterKey_applyHeaders_xcto r.headers, filterKey_applyHeaders_xfo r.headers,
   filterKey_applyHeaders_xxss r.headers, filterKey_applyHeaders_sts r.headers,
   filterKey_applyHeaders_csp r.headers, filterKey_applyHeaders_rp r.headers,
   filterKey_applyHeaders_pp r.headers⟩

/-! Auth-gate lemmas shared by the route-level theorems. -/

theorem jwtDecode_error_of_invalid {tok : Token} {key : String} {now : Int}
    (h : token_invalid tok key now) :
    ∃ err, jwtDecode tok key now = .error err := by
  rcases h with h | ⟨p, sk, hts, hne⟩ | ⟨p, sk, e, hts, hexp, hlt⟩
  · exact ⟨.decodeError, by rw [h]; rfl⟩
  · exact ⟨.invalidSignature, by rw [hts]; simp [jwtDecode, hne]⟩
  · by_cases hk : sk = key
    · exact ⟨.expiredSignature, by rw [hts]; simp [jwtDecode, hk, hexp, hlt]⟩
    · exact ⟨.invalidSignature, by rw [hts]; simp [jwtDecode, hk]⟩

theorem get_current_user_error_of_invalid {tok : Token} {key : String} {now : Int}
    (h : token_invalid tok key now) :
    get_current_user (some tok) now key = .error credentials_exception := by
  obtain ⟨err, herr⟩ := jwtDecode_error_of_invalid h
  simp [get_current_user, herr]

/-! Claim theorems. -/

/-- C1: the claim states that a request to a required-auth route (secure,
users/me, audit-log) with no Authorization header is answered with HTTP 401
and a WWW-Authenticate: Bearer header.  The code does something else: the
routes depend on get_current_user directly (require_auth is never used), so
the handler receives no identity, dereferences current_user.id, and the
resulting exception reaches the catch-all handler, which answers HTTP 500
with no WWW-Authenticate header.  This theorem evaluates the dispatch at the
failing inputs. -/
theorem required_auth_routes_without_credentials_return_500 :
    ((appDispatch { route := Route.secure, credentials := none, limit := 10 } 0 "secret").status = 500
        ∧ filterKey "WWW-Authenticate"
            (appDispatch { route := Route.secure, credentials := none, limit := 10 } 0 "secret").headers = [])
      ∧ ((appDispatch { route := Route.usersMe, credentials := none, limit := 10 } 0 "secret").status = 500
        ∧ filterKey "WWW-Authenticate"
            (appDispatch { route := Route.usersMe, credentials := none, limit := 10 } 0 "secret").headers = [])
      ∧ ((appDispatch { route := Route.auditLog, credentials := none, limit := 10 } 0 "secret").status = 500
        ∧ filterKey "WWW-Authenticate"
            (appDispatch { route := Route.auditLog, credentials := none, limit := 10 } 0 "secret").headers = []) := by
  decide

/-- C2 (amended): every response of the modelled service — normal route
responses and the 401/404/500 error paths, the envelope middleware applying
to every response per the collaborator contract of spec section 6 — carries
the seven fixed security headers set by setup_security_headers (the six the
spec lists plus X-XSS-Protection), each exactly once with the exact value the
code assigns. -/
theorem security_headers_on_every_response (req : Request) (now : Int) (key : String) :
    hasExactSecurityHeaders (appDispatch req now key) := by
  unfold appDispatch
  exact hasExact_setup _

/-- C2 counterexample: the envelope does not attach exactly the six headers
the spec enumerates — applied to a headerless response it also attaches
X-XSS-Protection, a security header outside the spec's six. -/
theorem envelope_attaches_header_outside_spec_six :
    ((setup_security_headers emptyResponse).headers.all
        fun p => specSixHeaderNames.contains p.1) = false
      ∧ filterKey "X-XSS-Protection" (setup_security_headers emptyResponse).headers
          = [("X-XSS-Protection", "1; mode=block")] := by
  decide

/-- C3: a credential signed under the service key, with expiry in the future
and carrying its subject identifier as the string sub claim, yields an
identity whose id is that sub claim, with no rejection (a token without a
string sub claim carries no subject identifier and is the case C9 covers). -/
theorem valid_token_yields_identity (p : Payload) (key : String) (now e : Int) (s : String)
    (hexp : p.exp = some e) (hfut : now < e) (hsub : p.sub = some (JsonValue.str s)) :
    ∃ u : User,
      get_current_user (some (Token.signed p key)) now key = .ok (some u) ∧ u.id = s := by
  refine ⟨{ id := s, email := "user" ++ s ++ "@example.com", created_at := now,
            is_active := true }, ?_, rfl⟩
  have hnlt : ¬ e < now := by omega
  simp [get_current_user, jwtDecode, hexp, hsub, hnlt]

/-- Witness for C3 at a concrete unexpired token. -/
theorem valid_token_yields_identity_witness :
    (0 : Int) < 100
      ∧ ∃ u : User,
          get_current_user
              (some (Token.signed { sub := some (JsonValue.str "42"), exp := some 100 } "secret"))
              0 "secret" = .ok (some u) ∧ u.id = "42" :=
  ⟨by decide, valid_token_yields_identity _ "secret" 0 100 "42" rfl (by decide) rfl⟩

/-- C4: a token whose expiry is in the past is rejected with the 401
credentials exception whatever key it was signed with — the signature check
and the expiry check raise the same JWTError and land in the same except
branch. -/
theorem expired_token_rejected (p : Payload) (sigKey key : String) (now e : Int)
    (hexp : p.exp = some e) (hpast : e < now) :
    get_current_user (some (Token.signed p sigKey)) now key = .error credentials_exception := by
  by_cases hk : sigKey = key
  · simp [get_current_user, jwtDecode, hk, hexp, hpast]
  · simp [get_current_user, jwtDecode, hk]

/-- Witness for C4: an expired token signed under a different key. -/
theorem expired_token_rejected_witness :
    (0 : Int) < 1
      ∧ get_current_user
            (some (Token.signed { sub := some (JsonValue.str "42"), exp := some 0 } "other"))
            1 "secret"
          = .error credentials_exception :=
  ⟨by decide, expired_token_rejected _ "other" "secret" 1 0 rfl (by decide)⟩

/-- C5: a token signed under a key different from the service signing key is
rejected with the 401 credentials exception. -/
theorem wrong_key_token_rejected (p : Payload) (sigKey key : String) (now : Int)
    (h : sigKey ≠ key) :
    get_current_user (some (Token.signed p sigKey)) now key = .error credentials_exception := by
  simp [get_current_user, jwtDecode, h]

/-- Witness for C5. -/
theorem wrong_key_token_rejected_witness :
    ("other" : String) ≠ "secret"
      ∧ get_current_user
            (some (Token.signed { sub := some (JsonValue.str "42"), exp := some 100 } "other"))
            0 "secret"
          = .error credentials_exception :=
  ⟨by decide, wrong_key_token_rejected _ "other" "secret" 0 (by decide)⟩

/-- C6: the Response Envelope is idempotent — running setup_security_headers
twice yields the same response, headers included, as running it once, because
each assignment overwrites the existing entry instead of appending. -/
theorem setup_security_headers_idempotent (response : HttpResponse) :
    setup_security_headers (setup_security_headers response) =
      setup_security_headers response := by
  simp [setup_security_headers, applyHeaders_idem]

/-- C7: a present but invalid credential — unparseable, signed under another
key, or expired — is rejected with the 401 credentials-exception response on
every modelled route, the optional-auth hello route included: it does not
fall back to the no-identity hello payload. -/
theorem invalid_credential_rejected_on_all_routes (tok : Token) (key : String)
    (now limit : Int) (h : token_invalid tok key now) :
    ((appDispatch { route := Route.hello, credentials := some tok, limit := limit } now key).status = 401
      ∧ (appDispatch { route := Route.hello, credentials := some tok, limit := limit } now key).body
          = Body.detail "Could not validate credentials")
    ∧ ((appDispatch { route := Route.secure, credentials := some tok, limit := limit } now key).status = 401
      ∧ (appDispatch { route := Route.secure, credentials := some tok, limit := limit } now key).body
          = Body.detail "Could not validate credentials")
    ∧ ((appDispatch { route := Route.usersMe, credentials := some tok, limit := limit } now key).status = 401
      ∧ (appDispatch { route := Route.usersMe, credentials := some tok, limit := limit } now key).body
          = Body.detail "Could not validate credentials")
    ∧ ((appDispatch { route := Route.auditLog, credentials := some tok, limit := limit } now key).status = 401
      ∧ (appDispatch { route := Route.auditLog, credentials := some tok, limit := limit } now key).body
          = Body.detail "Could not validate credentials") := by
  have hg := get_current_user_error_of_invalid h
  refine ⟨⟨?_, ?_⟩, ⟨?_, ?_⟩, ⟨?_, ?_⟩, ?_, ?_⟩ <;>
    simp [appDispatch, runRoute, authThen, hg, setup_security_headers, credentials_exception]

/-- Witness for C7: a malformed token on the optional-auth hello route. -/
theorem invalid_credential_rejected_witness :
    token_invalid Token.malformed "secret" 0
      ∧ (appDispatch { route := Route.hello, credentials := some Token.malformed, limit := 10 }
            0 "secret").status = 401 :=
  ⟨Or.inl rfl,
    (invalid_credential_rejected_on_all_routes Token.malformed "secret" 0 10 (Or.inl rfl)).1.1⟩

/-- C8: for every authenticated caller and every value of the limit
parameter, the audit-log endpoint returns the fixed placeholder payload
(message, note, the caller's id, a timestamp), and apart from the timestamp
argument the result does not depend on limit at all. -/
theorem audit_log_returns_placeholder (u : User) (limit limit2 now : Int) :
    get_audit_log (some u) limit now =
        .ok { message := "Audit log functionality - placeholder"
              note := "In production, this would return actual audit trail data"
              user_id := u.id
              timestamp := now }
      ∧ get_audit_log (some u) limit now = get_audit_log (some u) limit2 now :=
  ⟨rfl, rfl⟩

/-- C9: a token that verifies and is unexpired but whose payload lacks a sub
claim, or whose sub claim is not a string, is rejected with the same 401
credentials exception as an invalid credential — no identity and no
no-identity fallback. -/
theorem nonstring_sub_rejected (p : Payload) (key : String) (now e : Int)
    (hexp : p.exp = some e) (hfut : ¬ e < now) (hsub : sub_is_str p.sub = false) :
    get_current_user (some (Token.signed p key)) now key = .error credentials_exception
      ∧ credentials_exception.status_code = 401 := by
  refine ⟨?_, rfl⟩
  cases hp : p.sub with
  | none => simp [get_current_user, jwtDecode, hexp, hfut, hp]
  | some v =>
    cases v with
    | str s => rw [hp] at hsub; simp [sub_is_str] at hsub
    | num n => simp [get_current_user, jwtDecode, hexp, hfut, hp]
    | boolean b => simp [get_current_user, jwtDecode, hexp, hfut, hp]
    | null => simp [get_current_user, jwtDecode, hexp, hfut, hp]

/-- Witness for C9: an unexpired, correctly signed token with no sub claim. -/
theorem nonstring_sub_rejected_witness :
    sub_is_str (({ sub := none, exp := some 100 } : Payload).sub) = false
      ∧ (get_current_user (some (Token.signed { sub := none, exp := some 100 } "secret"))
              0 "secret"
            = .error credentials_exception
          ∧ credentials_exception.status_code = 401) :=
  ⟨rfl, nonstring_sub_rejected _ "secret" 0 100 rfl (by decide) rfl⟩

/-- C10: on any valid credential the returned identity is a pure function of
the sub claim — id is the sub claim, email is the synthesized
user{sub}@example.com string, is_active is always true — so no user store is
consulted, no IdentityNotFound rejection exists, and deactivated or
nonexistent subjects authenticate like any other. -/
theorem identity_pure_function_of_sub (p : Payload) (key : String) (now e : Int) (s : String)
    (hexp : p.exp = some e) (hfut : ¬ e < now) (hsub : p.sub = some (JsonValue.str s)) :
    get_current_user (some (Token.signed p key)) now key =
      .ok (some
        { id := s
          email := "user" ++ s ++ "@example.com"
          created_at := now
          is_active := true }) := by
  simp [get_current_user, jwtDecode, hexp, hfut, hsub]

/-- Witness for C10. -/
theorem identity_pure_function_of_sub_witness :
    ¬ (100 : Int) < 3
      ∧ get_current_user
            (some (Token.signed { sub := some (JsonValue.str "7"), exp := some 100 } "secret"))
            3 "secret"
          = .ok (some
            { id := "7", email := "user" ++ "7" ++ "@example.com", created_at := 3,
              is_active := true }) :=
  ⟨by decide, identity_pure_function_of_sub _ "secret" 3 100 "7" rfl (by decide) rfl⟩

end HippaStack
